import Mathlib

/-!
Shallow embedding of the ArtCollector view core: the `Searchable` attribute
link and `Feature` detail view (src/unnamed/part_000) and the `Preview`
result list with pagination (src/src/components/Preview.js).

Event handlers are embedded as functions from the fetch collaborator's
outcome to a list of steps; a step is either an immediately executed
primitive effect or a `setTimeout`-scheduled callback.  Render functions
are embedded as pure functions from props to a structured view value.
JavaScript truthiness on optional string fields (`{title && ...}`) is
modelled by `strTruthy`: `null`/`undefined` is `none`, and the empty
string is present but falsy.
-/

/-- One record of the catalog, per the fields destructured by `Feature`
and read by `Preview`.  All fields are optional, as in the source. -/
structure Person where
  name : String
  displayname : String
deriving Repr, DecidableEq

structure Rec where
  title : Option String := none
  dated : Option String := none
  images : Option (List String) := none
  primaryimageurl : Option String := none
  description : Option String := none
  culture : Option (List String) := none
  style : Option String := none
  technique : Option String := none
  medium : Option String := none
  dimensions : Option String := none
  people : Option (List Person) := none
  department : Option String := none
  division : Option String := none
  contact : Option String := none
  creditline : Option String := none
deriving Repr, DecidableEq

/-- Pagination cursors of a query result set (`info.prev` / `info.next`).
`none` models a `null`/absent cursor. -/
structure Info where
  prev : Option String := none
  next : Option String := none
deriving Repr, DecidableEq

/-- The shared query result set: `{ info, records }`. -/
structure ResultSet where
  info : Info
  records : List Rec
deriving Repr, DecidableEq

/-- JavaScript truthiness of an optional string: `null`/`undefined` and
`""` are falsy, every other string is truthy. -/
def strTruthy : Option String → Bool
  | none => false
  | some s => !(s == "")

/-- Primitive effects the core's handlers perform on the shared state or
on collaborators. -/
inductive Prim where
  | preventDefault
  | setIsLoading (b : Bool)
  | fetchByTermAndValue (term value : String)
  | fetchByURL (url : String)
  | setSearchResults (r : ResultSet)
  | consoleError
  | setFeaturedResult (r : Rec)
deriving Repr, DecidableEq

/-- A step of a handler: an immediate primitive, or a callback scheduled
with `setTimeout` after `ms` milliseconds. -/
inductive Step where
  | now (p : Prim)
  | timeout (ms : Nat) (cb : List Prim)
deriving Repr, DecidableEq

/-- Outcome of the awaited fetch collaborator call: the promise resolves
with a result set or rejects. -/
inductive FetchOutcome where
  | success (r : ResultSet)
  | failure
deriving Repr, DecidableEq

/-- The primitives a step list executes synchronously (before any timer
fires). -/
def nowPrims : List Step → List Prim
  | [] => []
  | .now p :: rest => p :: nowPrims rest
  | .timeout _ _ :: rest => nowPrims rest

/-- The primitives a step list has scheduled on timers, in schedule
order. -/
def deferredPrims : List Step → List Prim
  | [] => []
  | .now _ :: rest => deferredPrims rest
  | .timeout _ cb :: rest => cb ++ deferredPrims rest

/-- Event-loop execution order: all synchronous primitives run first,
then scheduled callbacks fire. -/
def runSteps (s : List Step) : List Prim :=
  nowPrims s ++ deferredPrims s

/-- The shared state slots owned by the container: `isLoading`,
`searchResults`, `featuredResult`, plus a count of diagnostic-sink
(`console.error`) entries. -/
structure Shared where
  isLoading : Bool
  searchResults : ResultSet
  featuredResult : Option Rec
  errorLog : Nat
deriving Repr, DecidableEq

def applyPrim (s : Shared) : Prim → Shared
  | .setIsLoading b => { s with isLoading := b }
  | .setSearchResults r => { s with searchResults := r }
  | .setFeaturedResult r => { s with featuredResult := some r }
  | .consoleError => { s with errorLog := s.errorLog + 1 }
  | .preventDefault => s
  | .fetchByTermAndValue _ _ => s
  | .fetchByURL _ => s

def applyPrims (s : Shared) : List Prim → Shared
  | [] => s
  | p :: rest => applyPrims (applyPrim s p) rest

/-- The `LoadingFlag` writes occurring in a trace, in order. -/
def loadingWrites (t : List Prim) : List Bool :=
  t.filterMap fun p =>
    match p with
    | .setIsLoading b => some b
    | _ => none

/-- The `QueryResultSet` writes occurring in a trace, in order. -/
def resultWrites (t : List Prim) : List ResultSet :=
  t.filterMap fun p =>
    match p with
    | .setSearchResults r => some r
    | _ => none

/-- The term/value calls a trace makes to the fetch collaborator. -/
def termValueCalls (t : List Prim) : List (String × String) :=
  t.filterMap fun p =>
    match p with
    | .fetchByTermAndValue term value => some (term, value)
    | _ => none

/-- The URL calls a trace makes to the fetch collaborator. -/
def urlCalls (t : List Prim) : List String :=
  t.filterMap fun p =>
    match p with
    | .fetchByURL url => some url
    | _ => none

/-- The number of diagnostic-sink entries (`console.error` calls) in a
trace. -/
def errorCalls (t : List Prim) : Nat :=
  (t.filterMap fun p =>
    match p with
    | .consoleError => some ()
    | _ => none).length

namespace Searchable

/-- Props of the `Searchable` component: `searchTerm` and `searchValue`
(the setters are modelled by the `Prim` effects themselves). -/
structure Props where
  searchTerm : String
  searchValue : String
deriving Repr, DecidableEq

/-- `handleClick` of `Searchable`: preventDefault; setIsLoading(true);
try ⟨await fetch(term, value); setSearchResults(results)⟩ catch
⟨console.error⟩ finally ⟨setTimeout(() => setIsLoading(false), 1000)⟩. -/
def handleClick (searchTerm searchValue : String)
    (outcome : FetchOutcome) : List Step :=
  [Step.now .preventDefault,
   Step.now (.setIsLoading true),
   Step.now (.fetchByTermAndValue searchTerm searchValue)] ++
  (match outcome with
   | .success results => [Step.now (.setSearchResults results)]
   | .failure => [Step.now .consoleError]) ++
  [Step.timeout 1000 [.setIsLoading false]]

/-- Activating the anchor of a `Searchable` runs `handleClick` with the
component's props. -/
def clickSteps (p : Props) (outcome : FetchOutcome) : List Step :=
  handleClick p.searchTerm p.searchValue outcome

/-- The text a `Searchable` displays inside its anchor: `{searchValue}`. -/
def displayText (p : Props) : String :=
  p.searchValue

end Searchable

namespace Preview

/-- `fetchPage` of `Preview`: setIsLoading(true); try ⟨await
fetchQueryResultsFromURL(pageUrl); setSearchResults(results)⟩ catch
⟨console.error⟩ finally ⟨setIsLoading(false)⟩. -/
def fetchPage (pageUrl : String) (outcome : FetchOutcome) : List Step :=
  [Step.now (.setIsLoading true),
   Step.now (.fetchByURL pageUrl)] ++
  (match outcome with
   | .success results => [Step.now (.setSearchResults results)]
   | .failure => [Step.now .consoleError]) ++
  [Step.now (.setIsLoading false)]

/-- The click handler of one result entry: preventDefault;
setFeaturedResult(record). -/
def recordClick (record : Rec) : List Step :=
  [Step.now .preventDefault,
   Step.now (.setFeaturedResult record)]

/-- Rendered form of one result entry: optional image (src, alt) and the
title text with its `|| MISSING INFO` fallback; `clicked` is the record
the entry's click handler passes to `setFeaturedResult`. -/
structure EntryView where
  image : Option (String × Option String)
  titleText : String
  clicked : Rec
deriving Repr, DecidableEq

def renderEntry (record : Rec) : EntryView :=
  { image :=
      match record.primaryimageurl with
      | some src => if src = "" then none else some (src, record.description)
      | none => none
  , titleText :=
      match record.title with
      | some t => if t = "" then "MISSING INFO" else t
      | none => "MISSING INFO"
  , clicked := record }

/-- Rendered form of `Preview`: the two pagination buttons
(`disabled={!info.prev}` / `disabled={!info.next}`, and the URL their
click handler passes to `fetchPage`) and one entry per record. -/
structure View where
  prevDisabled : Bool
  nextDisabled : Bool
  prevClickUrl : Option String
  nextClickUrl : Option String
  entries : List EntryView
deriving Repr, DecidableEq

def render (info : Info) (records : List Rec) : View :=
  { prevDisabled := !(strTruthy info.prev)
  , nextDisabled := !(strTruthy info.next)
  , prevClickUrl := info.prev
  , nextClickUrl := info.next
  , entries := records.map renderEntry }

end Preview

namespace Feature

/-- A fact row of the detail view: a labelled plain value, the unlabelled
`primaryimageurl` image row, or a labelled group of `Searchable` links. -/
inductive FactRow where
  | plain (label : String) (content : String)
  | image (src : String)
  | links (label : String) (links : List Searchable.Props)
deriving Repr, DecidableEq

/-- A heading of the detail view's header (`h3` title / `h4` dated). -/
inductive Heading where
  | h3 (t : String)
  | h4 (t : String)
deriving Repr, DecidableEq

/-- Rendered form of `Feature`: the header headings and the fact rows of
the facts section, in source order. -/
structure View where
  header : List Heading
  facts : List FactRow
deriving Repr, DecidableEq

/-- `{field && (<label/value row>)}`: a plain labelled row guarded by the
truthiness of the field. -/
def plainRow (field : Option String) (label : String) : List FactRow :=
  match field with
  | some v => if v = "" then [] else [.plain label v]
  | none => []

/-- `{primaryimageurl && (... <img src={primaryimageurl} /> ...)}`. -/
def imageRow (field : Option String) : List FactRow :=
  match field with
  | some v => if v = "" then [] else [.image v]
  | none => []

/-- `{Array.isArray(culture) && culture.length > 0 && ...}`: one
`Searchable` per culture entry, searchTerm "culture", value as-is. -/
def cultureRow (field : Option (List String)) : List FactRow :=
  match field with
  | some items =>
      if items.isEmpty then []
      else [.links "Culture:" (items.map fun item => ⟨"culture", item⟩)]
  | none => []

/-- `{technique && ...}`: one `Searchable`, searchTerm "technique",
searchValue `technique.toLowerCase()`. -/
def techniqueRow (field : Option String) : List FactRow :=
  match field with
  | some v => if v = "" then [] else [.links "Technique:" [⟨"technique", v.toLower⟩]]
  | none => []

/-- `{medium && ...}`: one `Searchable`, searchTerm "medium", searchValue
`medium` (passed through unmodified). -/
def mediumRow (field : Option String) : List FactRow :=
  match field with
  | some v => if v = "" then [] else [.links "Medium:" [⟨"medium", v⟩]]
  | none => []

/-- `{people && people.length > 0 && ...}`: one `Searchable` per person,
searchTerm "people", searchValue `person.name`. -/
def peopleRow (field : Option (List Person)) : List FactRow :=
  match field with
  | some persons =>
      if persons.isEmpty then []
      else [.links "People:" (persons.map fun person => ⟨"people", person.name⟩)]
  | none => []

/-- The header: `{title && <h3>{title}</h3>}{dated && <h4>{dated}</h4>}`. -/
def renderHeader (r : Rec) : List Heading :=
  (match r.title with
   | some t => if t = "" then [] else [Heading.h3 t]
   | none => []) ++
  (match r.dated with
   | some d => if d = "" then [] else [Heading.h4 d]
   | none => [])

/-- The facts section, rows in source order.  The destructured `images`
field is never used by the render, as in the source. -/
def renderFacts (r : Rec) : List FactRow :=
  plainRow r.title "Title:" ++
  plainRow r.dated "Dated:" ++
  imageRow r.primaryimageurl ++
  plainRow r.description "Description:" ++
  cultureRow r.culture ++
  plainRow r.style "Style:" ++
  techniqueRow r.technique ++
  mediumRow r.medium ++
  plainRow r.dimensions "Dimensions:" ++
  peopleRow r.people ++
  plainRow r.department "Department:" ++
  plainRow r.division "Division:" ++
  plainRow r.contact "Contact:" ++
  plainRow r.creditline "Credit Line:"

/-- `Feature`: `if (!featuredResult) return <main id="feature"></main>`,
otherwise the header and facts section. -/
def render (featuredResult : Option Rec) : View :=
  match featuredResult with
  | none => ⟨[], []⟩
  | some r => ⟨renderHeader r, renderFacts r⟩

/-- The label of a fact row, when it carries one (the image row has an
empty label span). -/
def rowLabel : FactRow → Option String
  | .plain label _ => some label
  | .image _ => none
  | .links label _ => some label

/-- Whether the view contains a fact row with the given label. -/
def hasRowLabel (v : View) (label : String) : Bool :=
  v.facts.any fun row => rowLabel row == some label

/-- The image-element sources appearing among the fact rows. -/
def imageSrcs (v : View) : List String :=
  v.facts.filterMap fun row =>
    match row with
    | .image src => some src
    | _ => none

/-- The `Searchable` links carried by one fact row. -/
def rowLinks : FactRow → List Searchable.Props
  | .links _ ls => ls
  | _ => []

/-- All `Searchable` links rendered in the view, in order. -/
def allLinks (v : View) : List Searchable.Props :=
  v.facts.flatMap rowLinks

/-- The `Searchable` links rendered for a given search term. -/
def linksFor (v : View) (term : String) : List Searchable.Props :=
  (allLinks v).filter fun p => p.searchTerm == term

end Feature

/-- C1: activating an AttributeLink (`Searchable`) or a pagination control
(`Preview.fetchPage`) yields a LoadingFlag transition sequence of exactly
`true` then `false`: `true` is written synchronously before the fetch
call, `false` is written after the fetch settles regardless of outcome,
and the QueryResultSet write (on success) or absence of one (on failure)
lies strictly between the two transitions. -/
theorem C1_loading_bracket :
    (∀ (term value : String) (outcome : FetchOutcome), ∃ pre mid,
      nowPrims (Searchable.handleClick term value outcome) =
        pre ++ [Prim.setIsLoading true, Prim.fetchByTermAndValue term value] ++ mid ∧
      runSteps (Searchable.handleClick term value outcome) =
        pre ++ [Prim.setIsLoading true, Prim.fetchByTermAndValue term value] ++ mid ++
          [Prim.setIsLoading false] ∧
      loadingWrites pre = [] ∧ loadingWrites mid = [] ∧
      resultWrites pre = [] ∧
      resultWrites mid = (match outcome with
        | .success r => [r]
        | .failure => [])) ∧
    (∀ (url : String) (outcome : FetchOutcome), ∃ pre mid,
      nowPrims (Preview.fetchPage url outcome) =
        pre ++ [Prim.setIsLoading true, Prim.fetchByURL url] ++ mid ++
          [Prim.setIsLoading false] ∧
      runSteps (Preview.fetchPage url outcome) =
        pre ++ [Prim.setIsLoading true, Prim.fetchByURL url] ++ mid ++
          [Prim.setIsLoading false] ∧
      loadingWrites pre = [] ∧ loadingWrites mid = [] ∧
      resultWrites pre = [] ∧
      resultWrites mid = (match outcome with
        | .success r => [r]
        | .failure => [])) := by
  constructor
  · intro term value outcome
    cases outcome with
    | success r =>
        exact ⟨[Prim.preventDefault], [Prim.setSearchResults r],
          rfl, rfl, rfl, rfl, rfl, rfl⟩
    | failure =>
        exact ⟨[Prim.preventDefault], [Prim.consoleError],
          rfl, rfl, rfl, rfl, rfl, rfl⟩
  · intro url outcome
    cases outcome with
    | success r =>
        exact ⟨[], [Prim.setSearchResults r], rfl, rfl, rfl, rfl, rfl, rfl⟩
    | failure =>
        exact ⟨[], [Prim.consoleError], rfl, rfl, rfl, rfl, rfl, rfl⟩

/-- C2: when the fetch collaborator rejects, both `Searchable.handleClick`
and `Preview.fetchPage` write the error once to the diagnostic sink,
leave the shared QueryResultSet unchanged, reset LoadingFlag to false
(after the `true` write), and terminate normally with no further
effects: the resulting shared state differs from the initial one only in
`isLoading` (reset to false) and the diagnostic-sink count (one new
entry). -/
theorem C2_failure_absorbed (s : Shared) :
    (∀ term value : String,
      errorCalls (runSteps (Searchable.handleClick term value .failure)) = 1 ∧
      resultWrites (runSteps (Searchable.handleClick term value .failure)) = [] ∧
      loadingWrites (runSteps (Searchable.handleClick term value .failure)) = [true, false] ∧
      applyPrims s (runSteps (Searchable.handleClick term value .failure)) =
        { s with isLoading := false, errorLog := s.errorLog + 1 }) ∧
    (∀ url : String,
      errorCalls (runSteps (Preview.fetchPage url .failure)) = 1 ∧
      resultWrites (runSteps (Preview.fetchPage url .failure)) = [] ∧
      loadingWrites (runSteps (Preview.fetchPage url .failure)) = [true, false] ∧
      applyPrims s (runSteps (Preview.fetchPage url .failure)) =
        { s with isLoading := false, errorLog := s.errorLog + 1 }) :=
  ⟨fun _ _ => ⟨rfl, rfl, rfl, rfl⟩, fun _ => ⟨rfl, rfl, rfl, rfl⟩⟩

/-- C9: each result entry of `Preview` carries exactly its record as the
`setFeaturedResult` target, and activating an entry only sets
SelectedRecord to that record: it makes no fetch collaborator call,
writes neither LoadingFlag nor QueryResultSet, and changes no shared
state slot other than `featuredResult`. -/
theorem C9_select_record_pure (info : Info) (records : List Rec) (s : Shared) :
    ((Preview.render info records).entries.map (fun e => e.clicked) = records) ∧
    ∀ record : Rec,
      applyPrims s (runSteps (Preview.recordClick record)) =
        { s with featuredResult := some record } ∧
      termValueCalls (runSteps (Preview.recordClick record)) = [] ∧
      urlCalls (runSteps (Preview.recordClick record)) = [] ∧
      loadingWrites (runSteps (Preview.recordClick record)) = [] ∧
      resultWrites (runSteps (Preview.recordClick record)) = [] := by
  refine ⟨?_, fun record => ⟨rfl, rfl, rfl, rfl, rfl⟩⟩
  have h : ((fun e : Preview.EntryView => e.clicked) ∘ Preview.renderEntry) = id :=
    funext fun _ => rfl
  simp [Preview.render, List.map_map, h]

/-- C10: after a `Searchable` fetch settles, LoadingFlag is not cleared
synchronously: the `false` write sits only in a callback scheduled with
`setTimeout(..., 1000)`, so at the end of the synchronous portion the
flag is still `true` even though QueryResultSet was already replaced on
success; only once the timer fires is the flag `false`.  By contrast,
`Preview.fetchPage` clears the flag synchronously in its `finally` block
and schedules no timer. -/
theorem C10_deferred_clear (term value url : String) (outcome : FetchOutcome)
    (s : Shared) :
    (Prim.setIsLoading false ∉ nowPrims (Searchable.handleClick term value outcome)) ∧
    (Step.timeout 1000 [Prim.setIsLoading false] ∈
      Searchable.handleClick term value outcome) ∧
    ((applyPrims s (nowPrims (Searchable.handleClick term value outcome))).isLoading
      = true) ∧
    ((applyPrims s (nowPrims (Searchable.handleClick term value outcome))).searchResults
      = (match outcome with
         | .success r => r
         | .failure => s.searchResults)) ∧
    ((applyPrims s (runSteps (Searchable.handleClick term value outcome))).isLoading
      = false) ∧
    (Prim.setIsLoading false ∈ nowPrims (Preview.fetchPage url outcome)) ∧
    (∀ (ms : Nat) (cb : List Prim), Step.timeout ms cb ∉ Preview.fetchPage url outcome) := by
  cases outcome with
  | success r =>
      refine ⟨?_, ?_, rfl, rfl, rfl, ?_, ?_⟩ <;>
        simp [Searchable.handleClick, Preview.fetchPage, nowPrims]
  | failure =>
      refine ⟨?_, ?_, rfl, rfl, rfl, ?_, ?_⟩ <;>
        simp [Searchable.handleClick, Preview.fetchPage, nowPrims]

/-- JavaScript truthiness of an optional array guarded by a
`.length > 0` check, as in the culture and people rows. -/
def listTruthy {α : Type} : Option (List α) → Bool
  | none => false
  | some items => !items.isEmpty

namespace Feature

/-- Whether a fact row carries the given label. -/
def labelIs (l : String) (row : FactRow) : Bool :=
  match rowLabel row with
  | some l0 => l0 == l
  | none => false

theorem hasRowLabel_eq_any (v : View) (l : String) :
    hasRowLabel v l = v.facts.any (labelIs l) := by
  unfold hasRowLabel
  congr 1
  funext row
  cases row <;> rfl

theorem any_label_plainRow (o : Option String) (l l' : String) :
    (plainRow o l).any (labelIs l') = (strTruthy o && (l == l')) := by
  cases o with
  | none => rfl
  | some v =>
    by_cases h : v = "" <;> simp [plainRow, h, strTruthy, labelIs, rowLabel]

theorem any_label_imageRow (o : Option String) (l' : String) :
    (imageRow o).any (labelIs l') = false := by
  cases o with
  | none => rfl
  | some v =>
    by_cases h : v = "" <;> simp [imageRow, h, labelIs, rowLabel]

theorem any_label_cultureRow (o : Option (List String)) (l' : String) :
    (cultureRow o).any (labelIs l') = (listTruthy o && ("Culture:" == l')) := by
  cases o with
  | none => rfl
  | some items =>
    by_cases h : items.isEmpty <;> simp [cultureRow, h, listTruthy, labelIs, rowLabel]

theorem any_label_techniqueRow (o : Option String) (l' : String) :
    (techniqueRow o).any (labelIs l') = (strTruthy o && ("Technique:" == l')) := by
  cases o with
  | none => rfl
  | some v =>
    by_cases h : v = "" <;> simp [techniqueRow, h, strTruthy, labelIs, rowLabel]

theorem any_label_mediumRow (o : Option String) (l' : String) :
    (mediumRow o).any (labelIs l') = (strTruthy o && ("Medium:" == l')) := by
  cases o with
  | none => rfl
  | some v =>
    by_cases h : v = "" <;> simp [mediumRow, h, strTruthy, labelIs, rowLabel]

theorem any_label_peopleRow (o : Option (List Person)) (l' : String) :
    (peopleRow o).any (labelIs l') = (listTruthy o && ("People:" == l')) := by
  cases o with
  | none => rfl
  | some persons =>
    by_cases h : persons.isEmpty <;> simp [peopleRow, h, listTruthy, labelIs, rowLabel]

/-- Closed form of the labels rendered by `Feature`: one term per guarded
row of the facts section. -/
theorem hasRowLabel_render (r : Rec) (l : String) :
    hasRowLabel (render (some r)) l =
      (strTruthy r.title && ("Title:" == l) ||
       strTruthy r.dated && ("Dated:" == l) ||
       strTruthy r.description && ("Description:" == l) ||
       listTruthy r.culture && ("Culture:" == l) ||
       strTruthy r.style && ("Style:" == l) ||
       strTruthy r.technique && ("Technique:" == l) ||
       strTruthy r.medium && ("Medium:" == l) ||
       strTruthy r.dimensions && ("Dimensions:" == l) ||
       listTruthy r.people && ("People:" == l) ||
       strTruthy r.department && ("Department:" == l) ||
       strTruthy r.division && ("Division:" == l) ||
       strTruthy r.contact && ("Contact:" == l) ||
       strTruthy r.creditline && ("Credit Line:" == l)) := by
  rw [hasRowLabel_eq_any]
  simp only [render, renderFacts, List.any_append,
    any_label_plainRow, any_label_imageRow, any_label_cultureRow,
    any_label_techniqueRow, any_label_mediumRow, any_label_peopleRow,
    Bool.or_false, Bool.false_or, Bool.or_assoc]

theorem flatMap_rowLinks_plainRow (o : Option String) (l : String) :
    (plainRow o l).flatMap rowLinks = [] := by
  cases o with
  | none => rfl
  | some v => by_cases h : v = "" <;> simp [plainRow, h, rowLinks]

theorem flatMap_rowLinks_imageRow (o : Option String) :
    (imageRow o).flatMap rowLinks = [] := by
  cases o with
  | none => rfl
  | some v => by_cases h : v = "" <;> simp [imageRow, h, rowLinks]

/-- The links of the facts section come from the culture, technique,
medium and people rows alone, in that order. -/
theorem allLinks_render (r : Rec) :
    allLinks (render (some r)) =
      (cultureRow r.culture).flatMap rowLinks ++
      (techniqueRow r.technique).flatMap rowLinks ++
      (mediumRow r.medium).flatMap rowLinks ++
      (peopleRow r.people).flatMap rowLinks := by
  simp only [allLinks, render, renderFacts, List.flatMap_append,
    flatMap_rowLinks_plainRow, flatMap_rowLinks_imageRow,
    List.append_nil, List.nil_append]

theorem filter_term_map {α : Type} (items : List α) (f : α → String)
    (c term : String) (h : (c == term) = false) :
    ((items.map fun item => (⟨c, f item⟩ : Searchable.Props)).filter
      fun p => p.searchTerm == term) = [] := by
  induction items with
  | nil => rfl
  | cons a t ih => simp [List.filter_cons, h, ih]

theorem filter_term_map_self {α : Type} (items : List α) (f : α → String)
    (c : String) :
    ((items.map fun item => (⟨c, f item⟩ : Searchable.Props)).filter
      fun p => p.searchTerm == c) =
      items.map fun item => (⟨c, f item⟩ : Searchable.Props) := by
  induction items with
  | nil => rfl
  | cons a t ih => simp [List.filter_cons, ih]

theorem filter_cultureRow (o : Option (List String)) (term : String)
    (h : ("culture" == term) = false) :
    ((cultureRow o).flatMap rowLinks).filter (fun p => p.searchTerm == term) = [] := by
  cases o with
  | none => rfl
  | some items =>
    by_cases he : items.isEmpty
    · simp [cultureRow, he]
    · simpa [cultureRow, he, rowLinks] using filter_term_map items (fun i => i) "culture" term h

theorem filter_techniqueRow (o : Option String) (term : String)
    (h : ("technique" == term) = false) :
    ((techniqueRow o).flatMap rowLinks).filter (fun p => p.searchTerm == term) = [] := by
  cases o with
  | none => rfl
  | some v => by_cases hv : v = "" <;> simp [techniqueRow, hv, rowLinks, List.filter_cons, h]

theorem filter_mediumRow (o : Option String) (term : String)
    (h : ("medium" == term) = false) :
    ((mediumRow o).flatMap rowLinks).filter (fun p => p.searchTerm == term) = [] := by
  cases o with
  | none => rfl
  | some v => by_cases hv : v = "" <;> simp [mediumRow, hv, rowLinks, List.filter_cons, h]

theorem filter_peopleRow (o : Option (List Person)) (term : String)
    (h : ("people" == term) = false) :
    ((peopleRow o).flatMap rowLinks).filter (fun p => p.searchTerm == term) = [] := by
  cases o with
  | none => rfl
  | some persons =>
    by_cases he : persons.isEmpty
    · simp [peopleRow, he]
    · simpa [peopleRow, he, rowLinks] using
        filter_term_map persons (fun p => p.name) "people" term h

theorem filter_mediumRow_self (o : Option String) :
    ((mediumRow o).flatMap rowLinks).filter (fun p => p.searchTerm == "medium") =
      (mediumRow o).flatMap rowLinks := by
  cases o with
  | none => rfl
  | some v => by_cases hv : v = "" <;> simp [mediumRow, hv, rowLinks, List.filter_cons]

theorem filter_techniqueRow_self (o : Option String) :
    ((techniqueRow o).flatMap rowLinks).filter (fun p => p.searchTerm == "technique") =
      (techniqueRow o).flatMap rowLinks := by
  cases o with
  | none => rfl
  | some v => by_cases hv : v = "" <;> simp [techniqueRow, hv, rowLinks, List.filter_cons]

theorem filter_peopleRow_self (o : Option (List Person)) :
    ((peopleRow o).flatMap rowLinks).filter (fun p => p.searchTerm == "people") =
      (peopleRow o).flatMap rowLinks := by
  cases o with
  | none => rfl
  | some persons =>
    by_cases he : persons.isEmpty
    · simp [peopleRow, he]
    · have h2 := filter_term_map_self persons (fun p => p.name) "people"
      simp [peopleRow, he, rowLinks, h2]

/-- The links rendered for search term "medium" are exactly the medium
row's. -/
theorem linksFor_render_medium (r : Rec) :
    linksFor (render (some r)) "medium" = (mediumRow r.medium).flatMap rowLinks := by
  rw [linksFor, allLinks_render, List.filter_append, List.filter_append,
    List.filter_append, filter_cultureRow _ _ (by decide),
    filter_techniqueRow _ _ (by decide), filter_mediumRow_self,
    filter_peopleRow _ _ (by decide)]
  simp

/-- The links rendered for search term "technique" are exactly the
technique row's. -/
theorem linksFor_render_technique (r : Rec) :
    linksFor (render (some r)) "technique" = (techniqueRow r.technique).flatMap rowLinks := by
  rw [linksFor, allLinks_render, List.filter_append, List.filter_append,
    List.filter_append, filter_cultureRow _ _ (by decide),
    filter_techniqueRow_self, filter_mediumRow _ _ (by decide),
    filter_peopleRow _ _ (by decide)]
  simp

/-- The links rendered for search term "people" are exactly the people
row's. -/
theorem linksFor_render_people (r : Rec) :
    linksFor (render (some r)) "people" = (peopleRow r.people).flatMap rowLinks := by
  rw [linksFor, allLinks_render, List.filter_append, List.filter_append,
    List.filter_append, filter_cultureRow _ _ (by decide),
    filter_techniqueRow _ _ (by decide), filter_mediumRow _ _ (by decide),
    filter_peopleRow_self]
  simp

end Feature

namespace Feature

/-- The image source carried by one fact row, if any. -/
def rowImage : FactRow → Option String
  | .image src => some src
  | _ => none

theorem imageSrcs_eq_filterMap (v : View) :
    imageSrcs v = v.facts.filterMap rowImage := by
  unfold imageSrcs
  congr 1

theorem rowImage_plainRow (o : Option String) (l : String) :
    (plainRow o l).filterMap rowImage = [] := by
  cases o with
  | none => rfl
  | some v => by_cases h : v = "" <;> simp [plainRow, h, rowImage]

theorem rowImage_cultureRow (o : Option (List String)) :
    (cultureRow o).filterMap rowImage = [] := by
  cases o with
  | none => rfl
  | some items => by_cases h : items.isEmpty <;> simp [cultureRow, h, rowImage]

theorem rowImage_techniqueRow (o : Option String) :
    (techniqueRow o).filterMap rowImage = [] := by
  cases o with
  | none => rfl
  | some v => by_cases h : v = "" <;> simp [techniqueRow, h, rowImage]

theorem rowImage_mediumRow (o : Option String) :
    (mediumRow o).filterMap rowImage = [] := by
  cases o with
  | none => rfl
  | some v => by_cases h : v = "" <;> simp [mediumRow, h, rowImage]

theorem rowImage_peopleRow (o : Option (List Person)) :
    (peopleRow o).filterMap rowImage = [] := by
  cases o with
  | none => rfl
  | some persons => by_cases h : persons.isEmpty <;> simp [peopleRow, h, rowImage]

/-- The only image element among the fact rows is the `primaryimageurl`
one, present exactly when that field is truthy. -/
theorem imageSrcs_render (r : Rec) :
    imageSrcs (render (some r)) =
      (match r.primaryimageurl with
       | some v => if v = "" then [] else [v]
       | none => []) := by
  rw [imageSrcs_eq_filterMap]
  simp only [render, renderFacts, List.filterMap_append, rowImage_plainRow,
    rowImage_cultureRow, rowImage_techniqueRow, rowImage_mediumRow,
    rowImage_peopleRow, List.append_nil, List.nil_append]
  cases r.primaryimageurl with
  | none => rfl
  | some v => by_cases h : v = "" <;> simp [imageRow, h, rowImage]

end Feature

/-- C8: `Feature` emits a labelled fact row only for present fields — for
culture and people only when also non-empty — an absent field yields no
row, the `primaryimageurl` image row appears exactly when that field is
truthy, and an absent record renders an empty container with no header
and no fact rows. -/
theorem C8_no_empty_rows :
    Feature.render none = ⟨[], []⟩ ∧
    ∀ r : Rec,
      Feature.hasRowLabel (Feature.render (some r)) "Title:" = strTruthy r.title ∧
      Feature.hasRowLabel (Feature.render (some r)) "Dated:" = strTruthy r.dated ∧
      Feature.hasRowLabel (Feature.render (some r)) "Description:" = strTruthy r.description ∧
      Feature.hasRowLabel (Feature.render (some r)) "Culture:" = listTruthy r.culture ∧
      Feature.hasRowLabel (Feature.render (some r)) "Style:" = strTruthy r.style ∧
      Feature.hasRowLabel (Feature.render (some r)) "Technique:" = strTruthy r.technique ∧
      Feature.hasRowLabel (Feature.render (some r)) "Medium:" = strTruthy r.medium ∧
      Feature.hasRowLabel (Feature.render (some r)) "Dimensions:" = strTruthy r.dimensions ∧
      Feature.hasRowLabel (Feature.render (some r)) "People:" = listTruthy r.people ∧
      Feature.hasRowLabel (Feature.render (some r)) "Department:" = strTruthy r.department ∧
      Feature.hasRowLabel (Feature.render (some r)) "Division:" = strTruthy r.division ∧
      Feature.hasRowLabel (Feature.render (some r)) "Contact:" = strTruthy r.contact ∧
      Feature.hasRowLabel (Feature.render (some r)) "Credit Line:" = strTruthy r.creditline ∧
      Feature.imageSrcs (Feature.render (some r)) =
        (match r.primaryimageurl with
         | some v => if v = "" then [] else [v]
         | none => []) := by
  refine ⟨rfl, fun r => ?_⟩
  refine ⟨?_, ?_, ?_, ?_, ?_, ?_, ?_, ?_, ?_, ?_, ?_, ?_, ?_, Feature.imageSrcs_render r⟩ <;>
    simp [Feature.hasRowLabel_render]

/-- C3: the medium AttributeLink's query value equals its displayed value,
both being the record's medium verbatim; the technique AttributeLink's
query value is the record's technique lower-cased, and its displayed
text equals that query value. -/
theorem C3_medium_verbatim_technique_lowercased (r : Rec) :
    (∀ m : String, r.medium = some m → m ≠ "" →
      Feature.linksFor (Feature.render (some r)) "medium" = [⟨"medium", m⟩] ∧
      Searchable.displayText ⟨"medium", m⟩ = m ∧
      ∀ outcome : FetchOutcome,
        termValueCalls (runSteps (Searchable.clickSteps ⟨"medium", m⟩ outcome)) =
          [("medium", m)]) ∧
    (∀ tq : String, r.technique = some tq → tq ≠ "" →
      Feature.linksFor (Feature.render (some r)) "technique" =
        [⟨"technique", tq.toLower⟩] ∧
      (∀ outcome : FetchOutcome,
        termValueCalls (runSteps (Searchable.clickSteps ⟨"technique", tq.toLower⟩ outcome)) =
          [("technique", tq.toLower)]) ∧
      Searchable.displayText ⟨"technique", tq.toLower⟩ = tq.toLower) := by
  constructor
  · intro m hm hne
    refine ⟨?_, rfl, fun outcome => ?_⟩
    · rw [Feature.linksFor_render_medium, hm]
      simp [Feature.mediumRow, hne, Feature.rowLinks]
    · cases outcome <;> rfl
  · intro tq ht hne
    refine ⟨?_, fun outcome => ?_, rfl⟩
    · rw [Feature.linksFor_render_technique, ht]
      simp [Feature.techniqueRow, hne, Feature.rowLinks]
    · cases outcome <;> rfl

/-- Witness for C3 at a concrete record with medium "Bronze" and
technique "Gilt". -/
theorem C3_witness :
    Feature.linksFor
        (Feature.render (some { medium := some "Bronze", technique := some "Gilt" }))
        "medium" = [⟨"medium", "Bronze"⟩] ∧
    Feature.linksFor
        (Feature.render (some { medium := some "Bronze", technique := some "Gilt" }))
        "technique" = [⟨"technique", "Gilt".toLower⟩] := by
  have h := C3_medium_verbatim_technique_lowercased
    { medium := some "Bronze", technique := some "Gilt" }
  exact ⟨(h.1 "Bronze" rfl (by decide)).1, (h.2 "Gilt" rfl (by decide)).1⟩

/-- C7: the "previous" control is disabled exactly when `info.prev` is
absent and the "next" control exactly when `info.next` is absent (valid
cursors being non-empty URLs), and an enabled control's click handler
runs `fetchPage` with the corresponding page URL. -/
theorem C7_pagination_controls (rs : ResultSet) :
    (rs.info.prev = none → (Preview.render rs.info rs.records).prevDisabled = true) ∧
    (∀ u : String, rs.info.prev = some u → u ≠ "" →
      (Preview.render rs.info rs.records).prevDisabled = false ∧
      (Preview.render rs.info rs.records).prevClickUrl = some u ∧
      ∀ outcome : FetchOutcome,
        urlCalls (runSteps (Preview.fetchPage u outcome)) = [u]) ∧
    (rs.info.next = none → (Preview.render rs.info rs.records).nextDisabled = true) ∧
    (∀ u : String, rs.info.next = some u → u ≠ "" →
      (Preview.render rs.info rs.records).nextDisabled = false ∧
      (Preview.render rs.info rs.records).nextClickUrl = some u ∧
      ∀ outcome : FetchOutcome,
        urlCalls (runSteps (Preview.fetchPage u outcome)) = [u]) := by
  refine ⟨fun h => ?_, fun u h hne => ⟨?_, ?_, fun outcome => ?_⟩,
    fun h => ?_, fun u h hne => ⟨?_, ?_, fun outcome => ?_⟩⟩ <;>
    first
      | (cases outcome <;> rfl)
      | simp [Preview.render, h, strTruthy, hne]
      | simp [Preview.render, h, strTruthy]

/-- Witness for C7 at `info = {prev: "page2", next: null}`. -/
theorem C7_witness :
    (Preview.render ⟨some "page2", none⟩ []).prevDisabled = false ∧
    (Preview.render ⟨some "page2", none⟩ []).prevClickUrl = some "page2" ∧
    urlCalls (runSteps (Preview.fetchPage "page2" .failure)) = ["page2"] ∧
    (Preview.render ⟨some "page2", none⟩ []).nextDisabled = true := by
  obtain ⟨h1, h2, h3, h4⟩ := C7_pagination_controls ⟨⟨some "page2", none⟩, []⟩
  have hp := h2 "page2" rfl (by decide)
  exact ⟨hp.1, hp.2.1, hp.2.2 .failure, h3 rfl⟩

/-- C4 (code evaluation at the failing input): with `medium = "Bronze"`,
the rendered medium AttributeLink carries query value `"Bronze"`
verbatim — not the lower-cased `"bronze"` — and passes it unchanged to
the fetch collaborator. -/
theorem C4_medium_query_not_lowercased :
    Feature.linksFor (Feature.render (some { medium := some "Bronze" })) "medium" =
      [⟨"medium", "Bronze"⟩] ∧
    Searchable.displayText ⟨"medium", "Bronze"⟩ = "Bronze" ∧
    termValueCalls (runSteps (Searchable.clickSteps ⟨"medium", "Bronze"⟩ .failure)) =
      [("medium", "Bronze")] ∧
    ("Bronze" : String) ≠ "bronze" := by
  refine ⟨?_, rfl, rfl, by decide⟩
  rfl

/-- C5 (code evaluation at the failing input): for a person whose `name`
and `displayname` differ, the people AttributeLink carries the `name`
member, not the display name. -/
theorem C5_people_value_is_name :
    Feature.linksFor (Feature.render (some { people := some [⟨"Gerrit Dou", "Dou"⟩] }))
        "people" = [⟨"people", "Gerrit Dou"⟩] ∧
    ("Gerrit Dou" : String) ≠ "Dou" := by
  refine ⟨?_, by decide⟩
  rfl

/-- C6 (code evaluation at the failing input): a record whose `images`
field is present yields no image element for it — the only image row
ever rendered comes from `primaryimageurl`. -/
theorem C6_images_ignored :
    (Feature.render (some { images := some ["https://example.org/a.jpg"] })).facts = [] ∧
    Feature.imageSrcs (Feature.render (some { images := some ["https://example.org/a.jpg"], primaryimageurl := some "https://example.org/p.jpg" })) =
      ["https://example.org/p.jpg"] := by
  exact ⟨rfl, rfl⟩
